import Mathlib

/-!
Verification of the OBR forecast extraction component
(`src/forecast_sources/sources/obr.py` of PolicyEngine/forecast-sources).

The development shallowly embeds the Python code:

* a spreadsheet cell is a `Cell` (a non-NaN number, a NaN, a string, an
  empty/missing cell, or some other object);
* a loaded sheet (`pandas.DataFrame` read with `header=None`) is a `Grid`;
* a Python `dict` is an association list built by `pdictInsert`, which
  keeps insertion order and overwrites the value of an existing key in
  place, exactly as CPython dicts do;
* numeric cell values are rationals (the claims under study depend only on
  equality, truncation and comparison of the stored numbers, not on IEEE
  rounding);
* the effectful fetch/cache step is embedded as a pure function over an
  explicit environment recording the cache contents and the network's
  response to each URL, returning the new environment together with the
  number of HTTP requests performed.
-/

set_option autoImplicit false

namespace ForecastSources

/-- A spreadsheet cell as produced by `pd.read_excel(..., header=None)`.
`num v` is a non-NaN Python `int` or `float` with value `v`; `nan` is a
float NaN (so `isinstance(cell, float)` holds but `pd.notna(cell)` does
not); `str s` is a text cell; `empty` is a missing/None cell; `other` is
any other Python object. -/
inductive Cell where
  | num (v : ℚ)
  | nan
  | str (s : String)
  | empty
  | other
  deriving DecidableEq

/-- A rectangular sheet: `cells` lists the rows, `ncols` is the column
count (`df.shape[1]`). -/
structure Grid where
  cells : List (List Cell)
  ncols : Nat
  deriving DecidableEq

/-- `df.shape[0]`: the number of rows. -/
def Grid.nrows (g : Grid) : Nat := g.cells.length

/-- `df.iloc[r, c]`. The loops in the source only index inside the
sheet's shape, so the out-of-range default is never reached there. -/
def Grid.cell (g : Grid) (r c : Nat) : Cell :=
  ((g.cells[r]?.getD [])[c]?.getD Cell.empty)

/-- `isinstance(cell, (int, float))`: NaN is a Python float, so it
passes this test. -/
def cellIsNumber : Cell → Bool
  | Cell.num _ => true
  | Cell.nan => true
  | _ => false

/-- `pd.notna(cell)`: false exactly on NaN and on missing cells. -/
def cellNotna : Cell → Bool
  | Cell.nan => false
  | Cell.empty => false
  | _ => true

/-- The numeric value of a cell; only consulted under the guard
`cellIsNumber && cellNotna`, which forces the `num` case. -/
def cellValue : Cell → ℚ
  | Cell.num v => v
  | _ => 0

/-- Python `int(x)` on a float: truncation toward zero. -/
def truncQ (q : ℚ) : Int := Int.tdiv q.num q.den

/-- CPython `dict` as an insertion-ordered association list:
`d[k] = v` overwrites the value of an existing key in place, otherwise
appends the binding at the end. -/
def pdictInsert {α β : Type} [DecidableEq α] : List (α × β) → α → β → List (α × β)
  | [], k, v => [(k, v)]
  | p :: rest, k, v =>
    if p.1 = k then (k, v) :: rest else p :: pdictInsert rest k v

/-- `d.get(k)`: the value bound to `k`, if any. -/
def pdictGet? {α β : Type} [DecidableEq α] (d : List (α × β)) (k : α) : Option β :=
  (d.find? (fun p => decide (p.1 = k))).map Prod.snd

/-- The keys of a dict, in order (`list(d.keys())`). -/
def pdictKeys {α β : Type} (d : List (α × β)) : List α := d.map Prod.fst

/-- One iteration of the row loop of `OBRForecast._extract_annual_data`:
if the cell in column 1 is a non-NaN number whose truncation lies in
[2008, 2035] and the cell in `col` is a non-NaN number, record
`year -> float(value)`; otherwise leave the result unchanged. -/
def extractRow (df : Grid) (col : Nat) (result : List (Int × ℚ)) (rowIdx : Nat) :
    List (Int × ℚ) :=
  let yearCell := df.cell rowIdx 1
  if cellIsNumber yearCell && cellNotna yearCell then
    let year := truncQ (cellValue yearCell)
    if 2008 ≤ year && year ≤ 2035 then
      let val := df.cell rowIdx col
      if cellNotna val && cellIsNumber val then
        pdictInsert result year (cellValue val)
      else result
    else result
  else result

/-- `OBRForecast._extract_annual_data(df, col)`: scan every row of the
sheet and collect the annual `year -> value` pairs. -/
def extractAnnualData (df : Grid) (col : Nat) : List (Int × ℚ) :=
  (List.range df.nrows).foldl (extractRow df col) []

/-- `sub` is a prefix of `l` (character-list version, used to express
Python's `in` on strings). -/
def charsPre : List Char → List Char → Bool
  | [], _ => true
  | _ :: _, [] => false
  | a :: as, b :: bs => a = b && charsPre as bs

/-- `sub in hay` for character lists: `sub` occurs contiguously in
`hay`. -/
def charsContain (hay sub : List Char) : Bool :=
  (List.range (hay.length + 1)).any (fun i => charsPre sub (hay.drop i))

/-- `s.lower()` as a character list. -/
def lowerChars (s : String) : List Char := s.toList.map Char.toLower

/-- The cell test of `_find_column_by_header`:
`isinstance(cell, str) and header_text.lower() in cell.lower()`. -/
def cellMatches (c : Cell) (headerText : String) : Bool :=
  match c with
  | Cell.str s => charsContain (lowerChars s) (lowerChars headerText)
  | _ => false

/-- `OBRForecast._find_column_by_header(df, header_text)`: scan the first
`min 10 nrows` rows and all columns in row-major order; return the column
index of the first matching cell, else `none`. -/
def findColumnByHeader (df : Grid) (headerText : String) : Option Nat :=
  (List.range (min 10 df.nrows)).findSome? (fun r =>
    (List.range df.ncols).find? (fun c => cellMatches (df.cell r c) headerText))

/-- The workbook handed to `_load_data`: `sheet n` is the sheet named `n`
when `pd.read_excel(path, sheet_name=n, header=None)` succeeds, and
`none` when that call raises (sheet absent or unreadable), which the
source catches and converts into a logged warning. -/
structure Workbook where
  sheet : String → Option Grid

/-- A forecast snapshot: the edition string together with `self._data`,
the dict from metric name to extracted annual series. -/
structure OBRForecast where
  edition : String
  data : List (String × List (Int × ℚ))

/-- The `col_map` dict of `_load_sheet_1_7`. -/
def colMap17 : List (String × Nat) :=
  [("rpi", 2), ("cpi", 4), ("cpih", 5), ("mortgage_interest", 7), ("rent", 8)]

/-- `OBRForecast._load_sheet_1_7`: on a sheet-load failure return the
data unchanged (the exception is caught and only logged); otherwise
store the extracted series of each metric of `col_map`. -/
def loadSheet17 (wb : Workbook) (d : List (String × List (Int × ℚ))) :
    List (String × List (Int × ℚ)) :=
  match wb.sheet "1.7" with
  | none => d
  | some df =>
    colMap17.foldl (fun d mc => pdictInsert d mc.1 (extractAnnualData df mc.2)) d

/-- The column search of `_load_sheet_1_6`: the first header text, then
the fallback. -/
def earningsColumn (df : Grid) : Option Nat :=
  match findColumnByHeader df "Average weekly earnings growth" with
  | some c => some c
  | none => findColumnByHeader df "Average earnings growth"

/-- `OBRForecast._load_sheet_1_6`: sheet-load failure or column-not-found
leaves the data unchanged; otherwise store the earnings series. -/
def loadSheet16 (wb : Workbook) (d : List (String × List (Int × ℚ))) :
    List (String × List (Int × ℚ)) :=
  match wb.sheet "1.6" with
  | none => d
  | some df =>
    match earningsColumn df with
    | none => d
    | some c => pdictInsert d "average_earnings" (extractAnnualData df c)

/-- `OBRForecast._load_sheet_1_16`: sheet-load failure or
column-not-found leaves the data unchanged; otherwise store the house
price series. -/
def loadSheet116 (wb : Workbook) (d : List (String × List (Int × ℚ))) :
    List (String × List (Int × ℚ)) :=
  match wb.sheet "1.16" with
  | none => d
  | some df =>
    match findColumnByHeader df "per cent change" with
    | none => d
    | some c => pdictInsert d "house_prices" (extractAnnualData df c)

/-- `OBRForecast._load_data` starting from the empty `self._data`: load
sheet 1.7, then 1.6, then 1.16. -/
def loadData (wb : Workbook) : List (String × List (Int × ℚ)) :=
  loadSheet116 wb (loadSheet16 wb (loadSheet17 wb []))

/-- Snapshot construction after the Excel file has been resolved. -/
def mkOBRForecast (edition : String) (wb : Workbook) : OBRForecast :=
  OBRForecast.mk edition (loadData wb)

/-- `OBRForecast.get(metric, year)`. -/
def OBRForecast.get (f : OBRForecast) (metric : String) (year : Int) : Option ℚ :=
  match pdictGet? f.data metric with
  | none => none
  | some series => pdictGet? series year

/-- The default year window `[2025, 2026, 2027, 2028, 2029, 2030]`. -/
def defaultYears : List Int := [2025, 2026, 2027, 2028, 2029, 2030]

/-- `OBRForecast.get_series(metric, years)`: a dict comprehension over
the requested years (`years = none` embeds the omitted argument). -/
def OBRForecast.getSeries (f : OBRForecast) (metric : String)
    (years : Option (List Int)) : List (Int × Option ℚ) :=
  let ys := years.getD defaultYears
  match pdictGet? f.data metric with
  | none => ys.foldl (fun d y => pdictInsert d y none) []
  | some series => ys.foldl (fun d y => pdictInsert d y (pdictGet? series y)) []

/-- The result of `pd.DataFrame(data, index=years)` in `compare_to`:
the row index and the columns in dict order, each column a name paired
with its values. -/
structure CompareFrame where
  index : List Int
  cols : List (String × List (Option ℚ))

/-- `OBRForecast.compare_to(other, metric, years)`: the column dict is a
Python dict literal keyed by the two edition strings, so coinciding
editions collapse to a single key. -/
def OBRForecast.compareTo (f other : OBRForecast) (metric : String)
    (years : Option (List Int)) : CompareFrame :=
  let ys := years.getD defaultYears
  let data :=
    pdictInsert
      (pdictInsert ([] : List (String × List (Option ℚ)))
        f.edition (ys.map (fun y => f.get metric y)))
      other.edition (ys.map (fun y => other.get metric y))
  CompareFrame.mk ys data

/-- `OBRForecast.available_metrics`: `list(self._data.keys())`. -/
def OBRForecast.availableMetrics (f : OBRForecast) : List String :=
  pdictKeys f.data

/-- The fixed edition registry `OBR_URLS`. -/
def OBR_URLS : List (String × String) :=
  [("november-2025",
    "https://obr.uk/docs/dlm_uploads/Economy_Detailed_forecast_tables_November_2025.xlsx"),
   ("march-2025",
    "https://obr.uk/docs/dlm_uploads/Economy_Detailed_forecast_tables_March_2025.xlsx")]

/-- The deterministic cache path `cache_dir / f"obr_{edition}_economy.xlsx"`. -/
def cachePath (cacheDir edition : String) : String :=
  cacheDir ++ "/obr_" ++ edition ++ "_economy.xlsx"

/-- The environment `_get_excel_path` runs in: the bytes currently
stored at each path of the file system (`none` when the path does not
exist) and the network's answer to a GET of each URL (`some body` for a
2xx response, `none` for a non-2xx status or a transport failure, both
of which `raise_for_status`/`requests.get` turn into an exception). -/
structure FetchEnv where
  cacheContents : String → Option (List Nat)
  urlResponse : String → Option (List Nat)

/-- The two exceptions `_get_excel_path` can raise. -/
inductive FetchError where
  | unknownEdition
  | downloadError
  deriving DecidableEq

/-- What one call of `_get_excel_path` did: the returned path or the
exception raised, the file system afterwards, and how many HTTP
requests were issued. -/
structure FetchOutcome where
  result : Except FetchError String
  env : FetchEnv
  requests : Nat

/-- The network half of `_get_excel_path`: `requests.get` followed by
`raise_for_status` and the write of the body to the cache path. -/
def fetchFromNetwork (edition cacheDir : String) (env : FetchEnv) (url : String) :
    FetchOutcome :=
  match env.urlResponse url with
  | none => FetchOutcome.mk (Except.error FetchError.downloadError) env 1
  | some body =>
    FetchOutcome.mk (Except.ok (cachePath cacheDir edition))
      (FetchEnv.mk
        (fun q => if q = cachePath cacheDir edition
          then some body else env.cacheContents q)
        env.urlResponse)
      1

/-- `OBRForecast._get_excel_path`: return the cache path if the file
exists; otherwise look the edition up in `OBR_URLS` (raising on an
unknown edition), GET the URL (raising on failure), write the body to
the cache path and return it. -/
def getExcelPath (edition cacheDir : String) (env : FetchEnv) : FetchOutcome :=
  if (env.cacheContents (cachePath cacheDir edition)).isSome then
    FetchOutcome.mk (Except.ok (cachePath cacheDir edition)) env 0
  else
    match pdictGet? OBR_URLS edition with
    | none => FetchOutcome.mk (Except.error FetchError.unknownEdition) env 0
    | some url => fetchFromNetwork edition cacheDir env url

theorem getExcelPath_cache_hit (edition cacheDir : String) (env : FetchEnv)
    (hc : (env.cacheContents (cachePath cacheDir edition)).isSome = true) :
    getExcelPath edition cacheDir env =
      FetchOutcome.mk (Except.ok (cachePath cacheDir edition)) env 0 := by
  unfold getExcelPath
  rw [if_pos hc]

theorem getExcelPath_unknown (edition cacheDir : String) (env : FetchEnv)
    (hc : (env.cacheContents (cachePath cacheDir edition)).isSome = false)
    (hreg : pdictGet? OBR_URLS edition = none) :
    getExcelPath edition cacheDir env =
      FetchOutcome.mk (Except.error FetchError.unknownEdition) env 0 := by
  unfold getExcelPath
  rw [hc, hreg]
  rfl

theorem getExcelPath_download_fail (edition cacheDir : String) (env : FetchEnv)
    (url : String)
    (hc : (env.cacheContents (cachePath cacheDir edition)).isSome = false)
    (hreg : pdictGet? OBR_URLS edition = some url)
    (hresp : env.urlResponse url = none) :
    getExcelPath edition cacheDir env =
      FetchOutcome.mk (Except.error FetchError.downloadError) env 1 := by
  unfold getExcelPath
  rw [hc, hreg]
  show fetchFromNetwork edition cacheDir env url = _
  unfold fetchFromNetwork
  rw [hresp]

theorem getExcelPath_download_ok (edition cacheDir : String) (env : FetchEnv)
    (url : String) (body : List Nat)
    (hc : (env.cacheContents (cachePath cacheDir edition)).isSome = false)
    (hreg : pdictGet? OBR_URLS edition = some url)
    (hresp : env.urlResponse url = some body) :
    getExcelPath edition cacheDir env =
      FetchOutcome.mk (Except.ok (cachePath cacheDir edition))
        (FetchEnv.mk
          (fun q => if q = cachePath cacheDir edition
            then some body else env.cacheContents q)
          env.urlResponse)
        1 := by
  unfold getExcelPath
  rw [hc, hreg]
  show fetchFromNetwork edition cacheDir env url = _
  unfold fetchFromNetwork
  rw [hresp]

/-! ### Spec-side characterizations

`specRowValue`/`specAnnualValue` restate §4.3 of the specification in its
own words: a row qualifies as an annual-summary row iff its year cell is
numeric and non-missing with truncation in `[2008, 2035]`; a qualifying
row records its value cell when that cell is numeric and non-missing; a
later qualifying row for the same year overwrites an earlier one.
`matchPositions` lists, in row-major order, the cells of the header
search region that match, restating §4.2. -/

/-- The value the specification says a single row contributes for year
`y`: `some v` iff the row qualifies for `y` and its value cell is a
non-missing number `v`. -/
def specRowValue (df : Grid) (col : Nat) (y : Int) (r : Nat) : Option ℚ :=
  match df.cell r 1, df.cell r col with
  | Cell.num yv, Cell.num vv =>
    if truncQ yv = y ∧ 2008 ≤ y ∧ y ≤ 2035 then some vv else none
  | _, _ => none

/-- The value the specification assigns to year `y`: the contribution of
the last qualifying row in scan order, if any. -/
def specAnnualValue (df : Grid) (col : Nat) (y : Int) : Option ℚ :=
  (List.range df.nrows).foldl (fun acc r => (specRowValue df col y r).or acc) none

/-- All matching positions of the header search region (first
`min 10 nrows` rows, all columns) in row-major order. -/
def matchPositions (df : Grid) (headerText : String) : List (Nat × Nat) :=
  (List.range (min 10 df.nrows)).flatMap (fun r =>
    ((List.range df.ncols).filter
      (fun c => cellMatches (df.cell r c) headerText)).map (fun c => (r, c)))

/-! ### Dict lemmas -/

theorem pdictGet?_nil {α β : Type} [DecidableEq α] (k : α) :
    pdictGet? ([] : List (α × β)) k = none := rfl

theorem pdictGet?_cons {α β : Type} [DecidableEq α]
    (p : α × β) (rest : List (α × β)) (k : α) :
    pdictGet? (p :: rest) k = if p.1 = k then some p.2 else pdictGet? rest k := by
  by_cases h : p.1 = k <;> simp [pdictGet?, List.find?, h]

theorem pdictGet?_insert {α β : Type} [DecidableEq α]
    (d : List (α × β)) (k k' : α) (v : β) :
    pdictGet? (pdictInsert d k v) k' = if k' = k then some v else pdictGet? d k' := by
  induction d with
  | nil =>
    by_cases h : k' = k
    · simp [pdictInsert, pdictGet?_cons, h]
    · simp [pdictInsert, pdictGet?_cons, h, Ne.symm h, pdictGet?_nil]
  | cons p rest ih =>
    by_cases hpk : p.1 = k
    · by_cases h : k' = k
      · simp [pdictInsert, hpk, pdictGet?_cons, h]
      · have hp : ¬ p.1 = k' := fun he => h (he ▸ hpk ▸ rfl : k' = k)
        simp [pdictInsert, hpk, pdictGet?_cons, h, Ne.symm h, hp]
    · simp only [pdictInsert, if_neg hpk, pdictGet?_cons, ih]
      by_cases hp : p.1 = k'
      · have hk : ¬ k' = k := fun he => hpk (he ▸ hp)
        simp [hp, hk]
      · simp [hp]

theorem mem_pdictKeys_iff {α β : Type} [DecidableEq α]
    (d : List (α × β)) (k : α) :
    k ∈ pdictKeys d ↔ pdictGet? d k ≠ none := by
  induction d with
  | nil => simp [pdictKeys, pdictGet?_nil]
  | cons p rest ih =>
    by_cases hp : p.1 = k
    · simp [pdictKeys, pdictGet?_cons, hp]
    · simp only [pdictKeys, List.map_cons, List.mem_cons, pdictGet?_cons, if_neg hp]
      constructor
      · intro h
        rcases h with h | h
        · exact absurd h.symm hp
        · exact ih.mp (by simpa [pdictKeys] using h)
      · intro h
        exact Or.inr (by simpa [pdictKeys] using ih.mpr h)

theorem pdictGet?_foldl_insert {α β : Type} [DecidableEq α]
    (ys : List α) (v : α → β) (d : List (α × β)) (y : α) :
    pdictGet? (ys.foldl (fun d y => pdictInsert d y (v y)) d) y =
      if y ∈ ys then some (v y) else pdictGet? d y := by
  induction ys generalizing d with
  | nil => simp
  | cons a ys ih =>
    simp only [List.foldl_cons, ih, pdictGet?_insert, List.mem_cons]
    by_cases hys : y ∈ ys
    · simp [hys]
    · by_cases ha : y = a <;> simp [hys, ha]

/-! ### Extraction lemmas -/

theorem pdictGet?_extractRow (df : Grid) (col : Nat)
    (d : List (Int × ℚ)) (r : Nat) (y : Int) :
    pdictGet? (extractRow df col d r) y =
      (specRowValue df col y r).or (pdictGet? d y) := by
  unfold extractRow specRowValue
  cases hy : df.cell r 1 with
  | num yv =>
    cases hv : df.cell r col with
    | num vv =>
      simp only [cellIsNumber, cellNotna, cellValue, Bool.and_self, if_true]
      by_cases hr : 2008 ≤ truncQ yv ∧ truncQ yv ≤ 2035
      · have hb : (2008 ≤ truncQ yv && truncQ yv ≤ 2035) = true := by
          simp [hr.1, hr.2]
        rw [if_pos hb]
        rw [pdictGet?_insert]
        by_cases hyy : y = truncQ yv
        · subst hyy
          simp [hr.1, hr.2, Option.or]
        · have : ¬ (truncQ yv = y ∧ 2008 ≤ y ∧ y ≤ 2035) := by
            intro hc; exact hyy hc.1.symm
          simp [hyy, this, Option.or]
      · have hb : (2008 ≤ truncQ yv && truncQ yv ≤ 2035) = false := by
          rcases (not_and_or.mp hr) with h | h <;> simp [h]
        rw [if_neg (by simp [hb])]
        have : ¬ (truncQ yv = y ∧ 2008 ≤ y ∧ y ≤ 2035) := by
          intro hc; exact hr (hc.1 ▸ ⟨hc.2.1, hc.2.2⟩)
        simp [this, Option.or]
    | nan =>
      simp only [cellIsNumber, cellNotna, cellValue, Bool.and_self, if_true]
      by_cases hr : (2008 ≤ truncQ yv && truncQ yv ≤ 2035) = true <;>
        simp [hr, hv, cellNotna, Option.or]
    | str s =>
      simp only [cellIsNumber, cellNotna, cellValue, Bool.and_self, if_true]
      by_cases hr : (2008 ≤ truncQ yv && truncQ yv ≤ 2035) = true <;>
        simp [hr, hv, cellNotna, cellIsNumber, Option.or]
    | empty =>
      simp only [cellIsNumber, cellNotna, cellValue, Bool.and_self, if_true]
      by_cases hr : (2008 ≤ truncQ yv && truncQ yv ≤ 2035) = true <;>
        simp [hr, hv, cellNotna, Option.or]
    | other =>
      simp only [cellIsNumber, cellNotna, cellValue, Bool.and_self, if_true]
      by_cases hr : (2008 ≤ truncQ yv && truncQ yv ≤ 2035) = true <;>
        simp [hr, hv, cellNotna, cellIsNumber, Option.or]
  | nan => simp [cellIsNumber, cellNotna, Option.or]
  | str s => simp [cellIsNumber, Option.or]
  | empty => simp [cellIsNumber, Option.or]
  | other => simp [cellIsNumber, Option.or]

theorem pdictGet?_extract_fold (df : Grid) (col : Nat) (y : Int) :
    ∀ (rs : List Nat) (d : List (Int × ℚ)),
      pdictGet? (rs.foldl (extractRow df col) d) y =
        rs.foldl (fun acc r => (specRowValue df col y r).or acc) (pdictGet? d y) := by
  intro rs
  induction rs with
  | nil => intro d; rfl
  | cons r rs ih =>
    intro d
    simp only [List.foldl_cons, ih, pdictGet?_extractRow]

/-- The lookup characterization of `_extract_annual_data`: the stored
value for a year is exactly what the specification's scan assigns it. -/
theorem extract_lookup (df : Grid) (col : Nat) (y : Int) :
    pdictGet? (extractAnnualData df col) y = specAnnualValue df col y := by
  unfold extractAnnualData specAnnualValue
  rw [pdictGet?_extract_fold]
  rfl

theorem specRowValue_ne_none_range (df : Grid) (col : Nat) (y : Int) (r : Nat) :
    specRowValue df col y r ≠ none → 2008 ≤ y ∧ y ≤ 2035 := by
  unfold specRowValue
  cases df.cell r 1 <;> cases df.cell r col <;> intro h <;> try exact absurd rfl h
  case num.num yv vv =>
    by_cases hc : truncQ yv = y ∧ 2008 ≤ y ∧ y ≤ 2035
    · exact hc.2
    · exact absurd (by simp [hc]) h

theorem foldl_or_ne_none {α β : Type} (f : α → Option β) :
    ∀ (rs : List α) (init : Option β),
      rs.foldl (fun acc r => (f r).or acc) init ≠ none →
        init ≠ none ∨ ∃ r, r ∈ rs ∧ f r ≠ none := by
  intro rs
  induction rs with
  | nil => intro init h; exact Or.inl h
  | cons a rs ih =>
    intro init h
    rcases ih ((f a).or init) h with h' | ⟨r, hr, hfr⟩
    · cases hfa : f a with
      | some v => exact Or.inr ⟨a, List.mem_cons_self a rs, by simp [hfa]⟩
      | none => exact Or.inl (by simpa [hfa, Option.or] using h')
    · exact Or.inr ⟨r, List.mem_cons_of_mem a hr, hfr⟩

theorem specAnnualValue_ne_none_range (df : Grid) (col : Nat) (y : Int) :
    specAnnualValue df col y ≠ none → 2008 ≤ y ∧ y ≤ 2035 := by
  intro h
  rcases foldl_or_ne_none (specRowValue df col y) (List.range df.nrows) none h with
    h' | ⟨r, _, hfr⟩
  · exact absurd rfl h'
  · exact specRowValue_ne_none_range df col y r hfr

/-! ### Substring and header-search lemmas -/

theorem charsPre_iff (as bs : List Char) :
    charsPre as bs = true ↔ ∃ t, bs = as ++ t := by
  induction as generalizing bs with
  | nil => simp [charsPre]
  | cons a as ih =>
    cases bs with
    | nil => simp [charsPre]
    | cons b bs =>
      simp only [charsPre, Bool.and_eq_true, decide_eq_true_eq, ih, List.cons_append,
        List.cons.injEq]
      constructor
      · rintro ⟨hab, t, ht⟩; exact ⟨t, hab.symm, ht⟩
      · rintro ⟨t, hab, ht⟩; exact ⟨hab.symm, t, ht⟩

theorem charsContain_iff (hay sub : List Char) :
    charsContain hay sub = true ↔ ∃ l1 l2, hay = l1 ++ sub ++ l2 := by
  unfold charsContain
  rw [List.any_eq_true]
  constructor
  · rintro ⟨i, _, hpre⟩
    rcases (charsPre_iff sub (hay.drop i)).mp hpre with ⟨t, ht⟩
    exact ⟨hay.take i, t, by
      conv_lhs => rw [← List.take_append_drop i hay]
      rw [ht, List.append_assoc]⟩
  · rintro ⟨l1, l2, hhay⟩
    refine ⟨l1.length, ?_, ?_⟩
    · rw [List.mem_range, hhay]
      have hlen : (l1 ++ sub ++ l2).length = l1.length + sub.length + l2.length := by
        simp [List.length_append]
        omega
      omega
    · rw [hhay, List.append_assoc, List.drop_left]
      exact (charsPre_iff sub (sub ++ l2)).mpr ⟨l2, rfl⟩

theorem find?_eq_head?_filter {α : Type} (p : α → Bool) (l : List α) :
    l.find? p = (l.filter p).head? := by
  induction l with
  | nil => rfl
  | cons a l ih =>
    by_cases h : p a
    · rw [List.find?_cons_of_pos l h, List.filter_cons_of_pos h, List.head?_cons]
    · rw [List.find?_cons_of_neg l h, List.filter_cons_of_neg h, ih]

theorem head?_flatMap_eq_findSome? {α γ : Type} (l : List α) (g : α → List γ) :
    (l.flatMap g).head? = l.findSome? (fun a => (g a).head?) := by
  induction l with
  | nil => rfl
  | cons a l ih =>
    rw [List.flatMap_cons, List.head?_append, List.findSome?_cons]
    cases hga : (g a).head? <;> simp [hga, ih, Option.or]

theorem findSome?_map_mk_snd {α : Type} (l : List α) (h : α → Option Nat) :
    (l.findSome? (fun a => (h a).map (fun c => (a, c)))).map Prod.snd =
      l.findSome? h := by
  induction l with
  | nil => rfl
  | cons a l ih =>
    rw [List.findSome?_cons, List.findSome?_cons]
    cases hha : h a <;> simp [hha, ih]

/-- `_find_column_by_header` returns the column of the head of the
row-major match list. -/
theorem findColumnByHeader_eq_head_matchPositions (df : Grid) (headerText : String) :
    findColumnByHeader df headerText =
      (matchPositions df headerText).head?.map Prod.snd := by
  unfold findColumnByHeader matchPositions
  rw [head?_flatMap_eq_findSome?]
  simp only [List.head?_map]
  rw [findSome?_map_mk_snd]
  simp only [← find?_eq_head?_filter]

/-- `_find_column_by_header` returns `none` exactly when no cell of the
search region matches. -/
theorem findColumnByHeader_eq_none_iff (df : Grid) (headerText : String) :
    findColumnByHeader df headerText = none ↔
      ∀ r c, r < min 10 df.nrows → c < df.ncols →
        cellMatches (df.cell r c) headerText = false := by
  unfold findColumnByHeader
  rw [List.findSome?_eq_none_iff]
  constructor
  · intro h r c hr hc
    have := h r (List.mem_range.mpr hr)
    rw [List.find?_eq_none] at this
    have := this c (List.mem_range.mpr hc)
    simpa using this
  · intro h r hr
    rw [List.find?_eq_none]
    intro c hc
    simp [h r c (List.mem_range.mp hr) (List.mem_range.mp hc)]

/-! ### Snapshot-construction lemmas -/

/-- What sheet 1.7 contributes for a metric stored at column `c`:
the extracted series when the sheet loads, absence when it does not. -/
def sheet17Value (wb : Workbook) (c : Nat) : Option (List (Int × ℚ)) :=
  (wb.sheet "1.7").map (fun df => extractAnnualData df c)

/-- What sheet 1.6 contributes for `average_earnings`. -/
def sheet16Value (wb : Workbook) : Option (List (Int × ℚ)) :=
  (wb.sheet "1.6").bind (fun df =>
    (earningsColumn df).map (fun c => extractAnnualData df c))

/-- What sheet 1.16 contributes for `house_prices`. -/
def sheet116Value (wb : Workbook) : Option (List (Int × ℚ)) :=
  (wb.sheet "1.16").bind (fun df =>
    (findColumnByHeader df "per cent change").map (fun c => extractAnnualData df c))

theorem loadSheet16_get_other (wb : Workbook) (d : List (String × List (Int × ℚ)))
    (m : String) (hm : m ≠ "average_earnings") :
    pdictGet? (loadSheet16 wb d) m = pdictGet? d m := by
  unfold loadSheet16
  cases h6 : wb.sheet "1.6" with
  | none => rfl
  | some df =>
    cases hc : earningsColumn df with
    | none => simp [hc]
    | some c => simp [hc, pdictGet?_insert, hm]

theorem loadSheet116_get_other (wb : Workbook) (d : List (String × List (Int × ℚ)))
    (m : String) (hm : m ≠ "house_prices") :
    pdictGet? (loadSheet116 wb d) m = pdictGet? d m := by
  unfold loadSheet116
  cases h16 : wb.sheet "1.16" with
  | none => rfl
  | some df =>
    cases hc : findColumnByHeader df "per cent change" with
    | none => simp [hc]
    | some c => simp [hc, pdictGet?_insert, hm]

theorem loadSheet17_get_other (wb : Workbook) (d : List (String × List (Int × ℚ)))
    (m : String) (h1 : m ≠ "rpi") (h2 : m ≠ "cpi") (h3 : m ≠ "cpih")
    (h4 : m ≠ "mortgage_interest") (h5 : m ≠ "rent") :
    pdictGet? (loadSheet17 wb d) m = pdictGet? d m := by
  unfold loadSheet17
  cases wb.sheet "1.7" with
  | none => rfl
  | some df => simp [colMap17, pdictGet?_insert, h1, h2, h3, h4, h5]

theorem loadSheet17_get_rpi (wb : Workbook) :
    pdictGet? (loadSheet17 wb []) "rpi" = sheet17Value wb 2 := by
  unfold loadSheet17 sheet17Value
  cases wb.sheet "1.7" with
  | none => rfl
  | some df => simp [colMap17, pdictGet?_insert]

theorem loadSheet17_get_cpi (wb : Workbook) :
    pdictGet? (loadSheet17 wb []) "cpi" = sheet17Value wb 4 := by
  unfold loadSheet17 sheet17Value
  cases wb.sheet "1.7" with
  | none => rfl
  | some df => simp [colMap17, pdictGet?_insert]

theorem loadSheet17_get_cpih (wb : Workbook) :
    pdictGet? (loadSheet17 wb []) "cpih" = sheet17Value wb 5 := by
  unfold loadSheet17 sheet17Value
  cases wb.sheet "1.7" with
  | none => rfl
  | some df => simp [colMap17, pdictGet?_insert]

theorem loadSheet17_get_mi (wb : Workbook) :
    pdictGet? (loadSheet17 wb []) "mortgage_interest" = sheet17Value wb 7 := by
  unfold loadSheet17 sheet17Value
  cases wb.sheet "1.7" with
  | none => rfl
  | some df => simp [colMap17, pdictGet?_insert]

theorem loadSheet17_get_rent (wb : Workbook) :
    pdictGet? (loadSheet17 wb []) "rent" = sheet17Value wb 8 := by
  unfold loadSheet17 sheet17Value
  cases wb.sheet "1.7" with
  | none => rfl
  | some df => simp [colMap17, pdictGet?_insert]

theorem loadData_get_rpi (wb : Workbook) :
    pdictGet? (loadData wb) "rpi" = sheet17Value wb 2 := by
  unfold loadData
  rw [loadSheet116_get_other wb _ _ (by decide),
    loadSheet16_get_other wb _ _ (by decide), loadSheet17_get_rpi]

theorem loadData_get_cpi (wb : Workbook) :
    pdictGet? (loadData wb) "cpi" = sheet17Value wb 4 := by
  unfold loadData
  rw [loadSheet116_get_other wb _ _ (by decide),
    loadSheet16_get_other wb _ _ (by decide), loadSheet17_get_cpi]

theorem loadData_get_cpih (wb : Workbook) :
    pdictGet? (loadData wb) "cpih" = sheet17Value wb 5 := by
  unfold loadData
  rw [loadSheet116_get_other wb _ _ (by decide),
    loadSheet16_get_other wb _ _ (by decide), loadSheet17_get_cpih]

theorem loadData_get_mi (wb : Workbook) :
    pdictGet? (loadData wb) "mortgage_interest" = sheet17Value wb 7 := by
  unfold loadData
  rw [loadSheet116_get_other wb _ _ (by decide),
    loadSheet16_get_other wb _ _ (by decide), loadSheet17_get_mi]

theorem loadData_get_rent (wb : Workbook) :
    pdictGet? (loadData wb) "rent" = sheet17Value wb 8 := by
  unfold loadData
  rw [loadSheet116_get_other wb _ _ (by decide),
    loadSheet16_get_other wb _ _ (by decide), loadSheet17_get_rent]

theorem loadData_get_ae (wb : Workbook) :
    pdictGet? (loadData wb) "average_earnings" = sheet16Value wb := by
  unfold loadData sheet16Value
  rw [loadSheet116_get_other wb _ _ (by decide)]
  unfold loadSheet16
  cases h6 : wb.sheet "1.6" with
  | none =>
    rw [loadSheet17_get_other wb _ _ (by decide) (by decide) (by decide)
      (by decide) (by decide)]
    rfl
  | some df =>
    cases hc : earningsColumn df with
    | none =>
      simp only [hc]
      rw [loadSheet17_get_other wb _ _ (by decide) (by decide) (by decide)
        (by decide) (by decide)]
      simp [hc, pdictGet?_nil]
    | some c => simp [hc, pdictGet?_insert]

theorem loadData_get_hp (wb : Workbook) :
    pdictGet? (loadData wb) "house_prices" = sheet116Value wb := by
  unfold loadData sheet116Value
  unfold loadSheet116
  cases h16 : wb.sheet "1.16" with
  | none =>
    rw [loadSheet16_get_other wb _ _ (by decide),
      loadSheet17_get_other wb _ _ (by decide) (by decide) (by decide)
        (by decide) (by decide)]
    rfl
  | some df =>
    cases hc : findColumnByHeader df "per cent change" with
    | none =>
      simp only [hc]
      rw [loadSheet16_get_other wb _ _ (by decide),
        loadSheet17_get_other wb _ _ (by decide) (by decide) (by decide)
          (by decide) (by decide)]
      simp [hc, pdictGet?_nil]
    | some c => simp [hc, pdictGet?_insert]

/-! ### Accessor lemmas -/

/-- The pair `(metric, year)` is present in the loaded data: the metric
was loaded and its series holds the year. -/
def OBRForecast.hasValue (f : OBRForecast) (metric : String) (year : Int) : Bool :=
  match pdictGet? f.data metric with
  | none => false
  | some series => (pdictGet? series year).isSome

/-! ### Claims -/

/-- Claim C1: for every snapshot, metric and year, `get` returns the
missing-value marker `none` exactly when the `(metric, year)` pair is not
present in the loaded data (in particular for metrics never loaded), so
absence is never turned into a default numeric value; `get` is a total
function of the embedding, so it raises no exception. -/
theorem claim_C1_get_absent (f : OBRForecast) (metric : String) (year : Int) :
    f.hasValue metric year = false ↔ f.get metric year = none := by
  unfold OBRForecast.hasValue OBRForecast.get
  cases pdictGet? f.data metric with
  | none => simp
  | some series => cases pdictGet? series year <;> simp

/-- Witness for C1 at a concrete snapshot: the metric `rpi` was never
loaded, so `get` returns `none`. -/
theorem claim_C1_get_absent_witness :
    (OBRForecast.mk "november-2025" [("cpi", [((2025 : Int), (69 : ℚ)/20)])]).get
      "rpi" 2025 = none :=
  (claim_C1_get_absent
    (OBRForecast.mk "november-2025" [("cpi", [((2025 : Int), (69 : ℚ)/20)])])
    "rpi" 2025).mp (by decide)

/-- Claim C4: for every grid and value column, the series built by
`_extract_annual_data` maps a year to exactly the value assigned by the
specification's scan: the last row in scan order whose year cell is a
non-missing number truncating into [2008, 2035] and whose value cell is
a non-missing number, rows failing either condition being skipped and
later qualifying rows overwriting earlier ones. -/
theorem claim_C4_extract_matches_spec (df : Grid) (col : Nat) (y : Int) :
    pdictGet? (extractAnnualData df col) y = specAnnualValue df col y :=
  extract_lookup df col y

/-- Claim C5: the year keys produced by `_extract_annual_data` always lie
inside [2008, 2035], for every input grid and value column. -/
theorem claim_C5_years_in_range (df : Grid) (col : Nat) (y : Int) :
    y ∈ pdictKeys (extractAnnualData df col) → 2008 ≤ y ∧ y ≤ 2035 := by
  intro h
  have h' := (mem_pdictKeys_iff (extractAnnualData df col) y).mp h
  rw [extract_lookup] at h'
  exact specAnnualValue_ne_none_range df col y h'

/-- Witness for C5 at a concrete grid holding one annual row for 2025. -/
theorem claim_C5_years_in_range_witness :
    (2025 : Int) ∈
      pdictKeys (extractAnnualData
        (Grid.mk [[Cell.empty, Cell.num 2025, Cell.num 3]] 3) 2) ∧
    (2008 ≤ (2025 : Int) ∧ (2025 : Int) ≤ 2035) :=
  ⟨by decide,
   claim_C5_years_in_range (Grid.mk [[Cell.empty, Cell.num 2025, Cell.num 3]] 3)
     2 2025 (by decide)⟩

/-- Claim C6: `_find_column_by_header` searches only the first
`min 10 nrows` rows and all columns; it returns the column of the first
matching cell in row-major order (the head of `matchPositions`), returns
`none` exactly when no cell of that region matches, and a cell matches
exactly when it is text containing the header text as a case-insensitive
substring. -/
theorem claim_C6_find_column (df : Grid) (headerText : String) :
    findColumnByHeader df headerText =
      (matchPositions df headerText).head?.map Prod.snd ∧
    (findColumnByHeader df headerText = none ↔
      ∀ r c, r < min 10 df.nrows → c < df.ncols →
        cellMatches (df.cell r c) headerText = false) ∧
    (∀ cell : Cell, cellMatches cell headerText = true ↔
      ∃ s l1 l2, cell = Cell.str s ∧
        lowerChars s = l1 ++ lowerChars headerText ++ l2) := by
  refine ⟨findColumnByHeader_eq_head_matchPositions df headerText,
    findColumnByHeader_eq_none_iff df headerText, ?_⟩
  intro cell
  cases cell with
  | str s =>
    simp only [cellMatches, charsContain_iff, Cell.str.injEq]
    constructor
    · rintro ⟨l1, l2, h⟩; exact ⟨s, l1, l2, rfl, h⟩
    · rintro ⟨s', l1, l2, hs, h⟩; exact ⟨l1, l2, hs ▸ h⟩
  | num v => simp [cellMatches]
  | nan => simp [cellMatches]
  | empty => simp [cellMatches]
  | other => simp [cellMatches]

/-- Witness for C6 at a concrete sheet: the earnings header in row 0,
column 1 is found by a case-insensitive substring search. -/
theorem claim_C6_find_column_witness :
    findColumnByHeader
      (Grid.mk [[Cell.num 1, Cell.str "Average weekly EARNINGS growth"]] 2)
      "earnings" = some 1 := by
  rw [(claim_C6_find_column
    (Grid.mk [[Cell.num 1, Cell.str "Average weekly EARNINGS growth"]] 2)
    "earnings").1]
  decide

/-- Counterexample to C2 as stated: `_get_excel_path` consults the cache
before the registry, so for the unregistered edition `bogus`, when a file
already sits at the edition's deterministic cache path, the call returns
that path instead of failing with the unknown-edition error. -/
theorem claim_C2_counterexample :
    pdictGet? OBR_URLS "bogus" = none ∧
    (getExcelPath "bogus" "/tmp"
      (FetchEnv.mk
        (fun q => if q = cachePath "/tmp" "bogus" then some [7] else none)
        (fun _ => none))).result = Except.ok (cachePath "/tmp" "bogus") ∧
    (getExcelPath "bogus" "/tmp"
      (FetchEnv.mk
        (fun q => if q = cachePath "/tmp" "bogus" then some [7] else none)
        (fun _ => none))).result ≠ Except.error FetchError.unknownEdition := by
  refine ⟨by decide, ?_, ?_⟩ <;>
    simp [getExcelPath, cachePath]

/-- Claim C2 (amended): for every edition absent from the registry
`OBR_URLS`, provided no file already sits at the edition's cache path,
`_get_excel_path` fails with the unknown-edition error, performs no
network request, and leaves the file system untouched. -/
theorem claim_C2_unknown_edition (edition cacheDir : String) (env : FetchEnv)
    (hreg : pdictGet? OBR_URLS edition = none)
    (hcache : env.cacheContents (cachePath cacheDir edition) = none) :
    getExcelPath edition cacheDir env =
      FetchOutcome.mk (Except.error FetchError.unknownEdition) env 0 :=
  getExcelPath_unknown edition cacheDir env (by rw [hcache]; rfl) hreg

/-- Witness for the amended C2 at a concrete unregistered edition and an
empty file system. -/
theorem claim_C2_unknown_edition_witness :
    getExcelPath "april-2020" "/tmp"
      (FetchEnv.mk (fun _ => none) (fun _ => none)) =
    FetchOutcome.mk (Except.error FetchError.unknownEdition)
      (FetchEnv.mk (fun _ => none) (fun _ => none)) 0 :=
  claim_C2_unknown_edition "april-2020" "/tmp"
    (FetchEnv.mk (fun _ => none) (fun _ => none)) (by decide) rfl

/-- Counterexample to C3 as stated: the column dict of `compare_to` is
keyed by the edition strings, so comparing two snapshots that carry the
same edition name collapses the two columns into one, not two. -/
theorem claim_C3_counterexample :
    ((OBRForecast.mk "march-2025" []).compareTo (OBRForecast.mk "march-2025" [])
      "cpi" (some [2025, 2026])).cols.length ≠ 2 := by
  decide

/-- Claim C3 (amended): for every pair of snapshots whose editions are
distinct, every metric and every requested year list, `compare_to` returns
a table whose row index is exactly the requested years in order and whose
columns are exactly two, named after the two editions in order, each
holding one value slot per requested year; and an omitted year list means
the default window. -/
theorem claim_C3_compare_shape (f g : OBRForecast) (metric : String)
    (ys : List Int) (hed : f.edition ≠ g.edition) :
    (f.compareTo g metric (some ys)).index = ys ∧
    pdictKeys (f.compareTo g metric (some ys)).cols = [f.edition, g.edition] ∧
    (∀ col ∈ (f.compareTo g metric (some ys)).cols, col.2.length = ys.length) ∧
    f.compareTo g metric none = f.compareTo g metric (some defaultYears) := by
  refine ⟨rfl, ?_, ?_, rfl⟩
  · simp [OBRForecast.compareTo, pdictInsert, pdictKeys, hed]
  · intro col hcol
    simp only [OBRForecast.compareTo, pdictInsert, if_neg hed] at hcol
    simp only [List.mem_cons, List.mem_singleton] at hcol
    rcases hcol with h | h | h
    · rw [h]; simp
    · rw [h]; simp
    · exact absurd h (List.not_mem_nil col)

/-- Witness for the amended C3 at two concrete snapshots with distinct
editions. -/
theorem claim_C3_compare_shape_witness :
    ((OBRForecast.mk "march-2025" []).compareTo (OBRForecast.mk "november-2025" [])
      "cpi" (some [2025, 2026])).index = [2025, 2026] ∧
    pdictKeys ((OBRForecast.mk "march-2025" []).compareTo
      (OBRForecast.mk "november-2025" []) "cpi" (some [2025, 2026])).cols =
      ["march-2025", "november-2025"] := by
  have h := claim_C3_compare_shape (OBRForecast.mk "march-2025" [])
    (OBRForecast.mk "november-2025" []) "cpi" [2025, 2026] (by decide)
  exact ⟨h.1, h.2.1⟩

/-- Claim C7: when a first call of `_get_excel_path` returns a path, a
second call in the file system the first one left behind returns the same
path, performs no network request and leaves the file system unchanged
(so the cached bytes are identical both times), and the first call
performed at most one request — hence at most one request in total. -/
theorem claim_C7_fetch_idempotent (edition cacheDir : String) (env : FetchEnv)
    (p : String) (h : (getExcelPath edition cacheDir env).result = Except.ok p) :
    getExcelPath edition cacheDir (getExcelPath edition cacheDir env).env =
      FetchOutcome.mk (Except.ok p) (getExcelPath edition cacheDir env).env 0 ∧
    (getExcelPath edition cacheDir env).requests ≤ 1 := by
  cases hc : (env.cacheContents (cachePath cacheDir edition)).isSome with
  | true =>
    rw [getExcelPath_cache_hit edition cacheDir env hc] at h ⊢
    simp only [Except.ok.injEq] at h
    subst h
    exact ⟨getExcelPath_cache_hit edition cacheDir env hc, Nat.zero_le 1⟩
  | false =>
    cases hreg : pdictGet? OBR_URLS edition with
    | none =>
      rw [getExcelPath_unknown edition cacheDir env hc hreg] at h
      exact absurd h (by simp)
    | some url =>
      cases hresp : env.urlResponse url with
      | none =>
        rw [getExcelPath_download_fail edition cacheDir env url hc hreg hresp] at h
        exact absurd h (by simp)
      | some body =>
        rw [getExcelPath_download_ok edition cacheDir env url body hc hreg hresp]
          at h ⊢
        simp only [Except.ok.injEq] at h
        subst h
        refine ⟨?_, Nat.le_refl 1⟩
        exact getExcelPath_cache_hit edition cacheDir _ (by simp)

/-- Witness for C7: a concrete successful first fetch of a registered
edition against an empty cache, followed by a cache hit. -/
theorem claim_C7_fetch_idempotent_witness :
    getExcelPath "march-2025" "/tmp"
      (getExcelPath "march-2025" "/tmp"
        (FetchEnv.mk (fun _ => none) (fun _ => some [1]))).env =
      FetchOutcome.mk (Except.ok (cachePath "/tmp" "march-2025"))
        (getExcelPath "march-2025" "/tmp"
          (FetchEnv.mk (fun _ => none) (fun _ => some [1]))).env 0 ∧
    (getExcelPath "march-2025" "/tmp"
      (FetchEnv.mk (fun _ => none) (fun _ => some [1]))).requests ≤ 1 :=
  claim_C7_fetch_idempotent "march-2025" "/tmp"
    (FetchEnv.mk (fun _ => none) (fun _ => some [1]))
    (cachePath "/tmp" "march-2025") rfl

/-- Claim C8: a failure to load one worksheet is absorbed locally —
construction still yields a snapshot (the embedding of `_load_data` is
total), the failed sheet's metrics are simply absent, and the metrics of
the other sheets are loaded exactly as their own sheets dictate. -/
theorem claim_C8_sheet_failure_absorbed (wb : Workbook) :
    (wb.sheet "1.7" = none →
      pdictGet? (loadData wb) "rpi" = none ∧
      pdictGet? (loadData wb) "cpi" = none ∧
      pdictGet? (loadData wb) "cpih" = none ∧
      pdictGet? (loadData wb) "mortgage_interest" = none ∧
      pdictGet? (loadData wb) "rent" = none ∧
      pdictGet? (loadData wb) "average_earnings" = sheet16Value wb ∧
      pdictGet? (loadData wb) "house_prices" = sheet116Value wb) ∧
    (wb.sheet "1.6" = none →
      pdictGet? (loadData wb) "average_earnings" = none ∧
      pdictGet? (loadData wb) "rpi" = sheet17Value wb 2 ∧
      pdictGet? (loadData wb) "cpi" = sheet17Value wb 4 ∧
      pdictGet? (loadData wb) "cpih" = sheet17Value wb 5 ∧
      pdictGet? (loadData wb) "mortgage_interest" = sheet17Value wb 7 ∧
      pdictGet? (loadData wb) "rent" = sheet17Value wb 8 ∧
      pdictGet? (loadData wb) "house_prices" = sheet116Value wb) ∧
    (wb.sheet "1.16" = none →
      pdictGet? (loadData wb) "house_prices" = none ∧
      pdictGet? (loadData wb) "rpi" = sheet17Value wb 2 ∧
      pdictGet? (loadData wb) "cpi" = sheet17Value wb 4 ∧
      pdictGet? (loadData wb) "cpih" = sheet17Value wb 5 ∧
      pdictGet? (loadData wb) "mortgage_interest" = sheet17Value wb 7 ∧
      pdictGet? (loadData wb) "rent" = sheet17Value wb 8 ∧
      pdictGet? (loadData wb) "average_earnings" = sheet16Value wb) := by
  refine ⟨fun h7 => ?_, fun h6 => ?_, fun h16 => ?_⟩
  · refine ⟨?_, ?_, ?_, ?_, ?_, loadData_get_ae wb, loadData_get_hp wb⟩ <;>
      simp [loadData_get_rpi, loadData_get_cpi, loadData_get_cpih,
        loadData_get_mi, loadData_get_rent, sheet17Value, h7]
  · refine ⟨?_, loadData_get_rpi wb, loadData_get_cpi wb, loadData_get_cpih wb,
      loadData_get_mi wb, loadData_get_rent wb, loadData_get_hp wb⟩
    rw [loadData_get_ae wb]
    simp [sheet16Value, h6]
  · refine ⟨?_, loadData_get_rpi wb, loadData_get_cpi wb, loadData_get_cpih wb,
      loadData_get_mi wb, loadData_get_rent wb, loadData_get_ae wb⟩
    rw [loadData_get_hp wb]
    simp [sheet116Value, h16]

/-- A concrete workbook whose sheet 1.7 loads (one annual row) while
sheets 1.6 and 1.16 fail to load. -/
def wbTest : Workbook :=
  Workbook.mk (fun n =>
    if n = "1.7"
    then some (Grid.mk
      [[Cell.empty, Cell.num 2025, Cell.empty, Cell.empty, Cell.num 2]] 5)
    else none)

/-- Witness for C8 at `wbTest`: sheet 1.6 failed, so `average_earnings`
is absent while `cpi` from sheet 1.7 is still loaded. -/
theorem claim_C8_sheet_failure_absorbed_witness :
    pdictGet? (loadData wbTest) "average_earnings" = none ∧
    pdictGet? (loadData wbTest) "cpi" = some [((2025 : Int), (2 : ℚ))] := by
  have h := (claim_C8_sheet_failure_absorbed wbTest).2.1 (by decide)
  exact ⟨h.1, by rw [h.2.2.1]; decide⟩

/-- Claim C9: `get_series` is total over the requested years — its key
set is exactly the requested years, each year mapped to `get`'s value
for it (possibly the absent marker), and an omitted year list means the
default window 2025–2030. -/
theorem claim_C9_get_series_total (f : OBRForecast) (metric : String) :
    (∀ (ys : List Int) (y : Int),
      pdictGet? (f.getSeries metric (some ys)) y =
        if y ∈ ys then some (f.get metric y) else none) ∧
    (∀ (ys : List Int) (y : Int),
      y ∈ pdictKeys (f.getSeries metric (some ys)) ↔ y ∈ ys) ∧
    f.getSeries metric none = f.getSeries metric (some defaultYears) ∧
    defaultYears = [2025, 2026, 2027, 2028, 2029, 2030] := by
  have hmain : ∀ (ys : List Int) (y : Int),
      pdictGet? (f.getSeries metric (some ys)) y =
        if y ∈ ys then some (f.get metric y) else none := by
    intro ys y
    cases hm : pdictGet? f.data metric with
    | none =>
      simp only [OBRForecast.getSeries, OBRForecast.get, Option.getD_some, hm]
      rw [pdictGet?_foldl_insert ys (fun _ => (none : Option ℚ)) [] y]
      by_cases h : y ∈ ys <;> simp [h, pdictGet?_nil]
    | some series =>
      simp only [OBRForecast.getSeries, OBRForecast.get, Option.getD_some, hm]
      rw [pdictGet?_foldl_insert ys (fun y => pdictGet? series y) [] y]
      by_cases h : y ∈ ys <;> simp [h, pdictGet?_nil]
  refine ⟨hmain, ?_, rfl, rfl⟩
  intro ys y
  rw [mem_pdictKeys_iff, hmain ys y]
  by_cases h : y ∈ ys <;> simp [h]

/-- Witness for C9 at a concrete snapshot: the requested year 2030 is a
key of the series even though the metric has no value there. -/
theorem claim_C9_get_series_total_witness :
    pdictGet? ((OBRForecast.mk "e" [("cpi", [((2025 : Int), (1 : ℚ))])]).getSeries
      "cpi" (some [2025, 2030])) 2030 = some none := by
  have h := (claim_C9_get_series_total
    (OBRForecast.mk "e" [("cpi", [((2025 : Int), (1 : ℚ))])]) "cpi").1
    [2025, 2030] 2030
  rw [h]
  decide

/-- Claim C10: `available_metrics` lists exactly the metrics whose series
was loaded, and the accessors agree with it — `get` can return a value
only for a listed metric, and for an unlisted metric `get` is the absent
marker at every year while `get_series` maps every requested year to the
absent marker. -/
theorem claim_C10_available_metrics (f : OBRForecast) (metric : String) :
    (metric ∈ f.availableMetrics ↔ pdictGet? f.data metric ≠ none) ∧
    (∀ (y : Int) (v : ℚ), f.get metric y = some v → metric ∈ f.availableMetrics) ∧
    (metric ∉ f.availableMetrics →
      (∀ y : Int, f.get metric y = none) ∧
      (∀ (ys : List Int) (y : Int), y ∈ ys →
        pdictGet? (f.getSeries metric (some ys)) y = some none)) := by
  have hkeys : metric ∈ f.availableMetrics ↔ pdictGet? f.data metric ≠ none :=
    mem_pdictKeys_iff f.data metric
  refine ⟨hkeys, ?_, ?_⟩
  · intro y v hv
    rw [hkeys]
    cases hm : pdictGet? f.data metric with
    | none =>
      simp only [OBRForecast.get, hm] at hv
      exact absurd hv (by simp)
    | some series => simp [hm]
  · intro hnot
    have hm : pdictGet? f.data metric = none := by
      by_cases h : pdictGet? f.data metric = none
      · exact h
      · exact absurd (hkeys.mpr h) hnot
    constructor
    · intro y
      simp only [OBRForecast.get, hm]
    · intro ys y hy
      simp only [OBRForecast.getSeries, Option.getD_some, hm]
      rw [pdictGet?_foldl_insert ys (fun _ => (none : Option ℚ)) [] y]
      simp [hy]

/-- Witness for C10 at a concrete snapshot: `rpi` is not listed, so
`get` returns the absent marker at 2030. -/
theorem claim_C10_available_metrics_witness :
    (OBRForecast.mk "e" [("cpi", [((2025 : Int), (1 : ℚ))])]).get "rpi" 2030 =
      none :=
  ((claim_C10_available_metrics
    (OBRForecast.mk "e" [("cpi", [((2025 : Int), (1 : ℚ))])]) "rpi").2.2
    (by decide)).1 2030

end ForecastSources
